import Mathlib

/-!
Shallow embedding of the executable code of the `tech-blog` repository.

The repository's only executable code is:
* `src/theme.config.tsx` — a Nextra `DocsThemeConfig` object literal (the file
  holds two variants that differ only in `chat.link`; both are embedded below
  as `config` and `configV2`);
* `src/components/LogoWithThumbnail.tsx` — a React function component that
  returns a fragment with one `<img>` and one `<span>`.

JSX trees are embedded as the inductive `Node`; object literals become Lean
structure literals.  Optional `DocsThemeConfig` fields that the source literal
does not set are `none` in the embedding.
-/

namespace TechBlog

/-- An attribute value in a JSX tree: either a plain string (e.g. `src={"…"}`)
or an inline style object (e.g. `style={{fontSize:'xx-large'}}`, a list of
CSS property/value pairs). -/
inductive AttrValue where
  | str (s : String)
  | style (props : List (String × String))
deriving Repr, DecidableEq

/-- A rendered JSX tree: a text node, an element with a tag, attributes and
children, or a fragment (`<>…</>`). -/
inductive Node where
  | text (s : String)
  | element (tag : String) (attrs : List (String × AttrValue)) (children : List Node)
  | fragment (children : List Node)
deriving Repr

mutual

/-- Number of elements with the given tag in a JSX tree (the element itself
and, recursively, its children). -/
def countTag (tag : String) : Node → Nat
  | .text _ => 0
  | .element t _ cs => (if t = tag then 1 else 0) + countTagList tag cs
  | .fragment cs => countTagList tag cs

/-- Number of elements with the given tag in a list of JSX trees. -/
def countTagList (tag : String) : List Node → Nat
  | [] => 0
  | c :: cs => countTag tag c + countTagList tag cs

end

/-- Look up a string-valued attribute by name in an attribute list. -/
def attrStr : List (String × AttrValue) → String → Option String
  | [], _ => none
  | (n, v) :: rest, name =>
      if n = name then
        match v with
        | .str s => some s
        | .style _ => none
      else attrStr rest name

mutual

/-- The `src` attributes of all `img` elements in a JSX tree, in document
order. -/
def imgSrcs : Node → List String
  | .text _ => []
  | .element t attrs cs =>
      (if t = "img" then (attrStr attrs "src").toList else []) ++ imgSrcsList cs
  | .fragment cs => imgSrcsList cs

/-- The `src` attributes of all `img` elements in a list of JSX trees. -/
def imgSrcsList : List Node → List String
  | [] => []
  | c :: cs => imgSrcs c ++ imgSrcsList cs

end

mutual

/-- The concatenated text content of a JSX tree. -/
def textContent : Node → String
  | .text s => s
  | .element _ _ cs => textContentList cs
  | .fragment cs => textContentList cs

/-- The concatenated text content of a list of JSX trees. -/
def textContentList : List Node → String
  | [] => ""
  | c :: cs => textContent c ++ textContentList cs

end

mutual

/-- The text contents of all `span` elements in a JSX tree, in document
order. -/
def spanTexts : Node → List String
  | .text _ => []
  | .element t _ cs =>
      (if t = "span" then [textContentList cs] else []) ++ spanTextsList cs
  | .fragment cs => spanTextsList cs

/-- The text contents of all `span` elements in a list of JSX trees. -/
def spanTextsList : List Node → List String
  | [] => []
  | c :: cs => spanTexts c ++ spanTextsList cs

end

/-- The `project` field of a `DocsThemeConfig` (`project: { link: … }`). -/
structure ProjectLink where
  link : String
deriving Repr, DecidableEq

/-- The `chat` field of a `DocsThemeConfig` (`chat: { link: … }`). -/
structure ChatLink where
  link : String
deriving Repr, DecidableEq

/-- The `footer` field of a `DocsThemeConfig` (`footer: { text: … }`). -/
structure Footer where
  text : String
deriving Repr, DecidableEq

/-- The `sidebar` field of a `DocsThemeConfig`
(`sidebar: { defaultMenuCollapseLevel: … }`); the collapse level is itself an
optional member. -/
structure SidebarConfig where
  defaultMenuCollapseLevel : Option Int
deriving Repr, DecidableEq

/-- The part of Nextra's `DocsThemeConfig` type that this repository's
configuration and the specification mention.  Every field of the TypeScript
type is optional; a field that an object literal does not set is `none`. -/
structure DocsThemeConfig where
  logo : Option Node := none
  project : Option ProjectLink := none
  chat : Option ChatLink := none
  docsRepositoryBase : Option String := none
  footer : Option Footer := none
  head : Option Node := none
  sidebar : Option SidebarConfig := none
deriving Repr

/-- The `logo` value of the configuration object in `src/theme.config.tsx`:
`<span style={{fontSize:'xx-large'}}><b>Athar Faridi</b></span>`. -/
def logoSpan : Node :=
  .element "span" [("style", .style [("fontSize", "xx-large")])]
    [.element "b" [] [.text "Athar Faridi"]]

/-- The exported configuration object of `src/theme.config.tsx` (first
variant in the file; `chat.link` is the WhatsApp URL).  The literal sets
`logo`, `project`, `chat`, `docsRepositoryBase` and `footer`, and sets no
other field. -/
def config : DocsThemeConfig :=
  { logo := some logoSpan
    project := some { link := "https://github.com/atharefaridi" }
    chat := some { link := "https://wa.me/351933442044" }
    docsRepositoryBase := some "https://github.com/atharefaridi"
    footer := some { text := "Athar Faridi Portfolio" } }

/-- The second variant of the configuration object in `src/theme.config.tsx`;
it differs from `config` only in `chat.link` (the Discord URL). -/
def configV2 : DocsThemeConfig :=
  { logo := some logoSpan
    project := some { link := "https://github.com/atharefaridi" }
    chat := some { link := "https://discord.com" }
    docsRepositoryBase := some "https://github.com/atharefaridi"
    footer := some { text := "Athar Faridi Portfolio" } }

/-- The React component of `src/components/LogoWithThumbnail.tsx`.  It takes
no props (embedded as `Unit`) and returns a fragment holding one `<img>` with
a fixed avatar URL and inline style, and one `<span>` wrapping
`<b>Athar Faridi</b>`. -/
def LogoWithThumbnail : Unit → Node := fun _ =>
  .fragment
    [ .element "img"
        [ ("src", .str "https://avatars.githubusercontent.com/u/10737044?v=4"),
          ("style", .style
            [ ("width", "50px"), ("height", "50px"), ("borderRadius", "50%"),
              ("marginRight", "8px"), ("objectFit", "cover"),
              ("border", "3px") ]) ]
        [],
      .element "span" [("style", .style [("fontSize", "xx-large")])]
        [.element "b" [] [.text "Athar Faridi"]] ]

/-- The sidebar collapse level a configuration sets, if any: the
`defaultMenuCollapseLevel` member of its `sidebar` field. -/
def sidebarCollapseLevel (c : DocsThemeConfig) : Option Int :=
  c.sidebar.bind SidebarConfig.defaultMenuCollapseLevel

/-- The configuration observed by a read at any instant after module
initialization.  `src/theme.config.tsx` binds `config` with `const`, and no
statement in the repository assigns to the object or to any of its fields, so
every later read observes the initial literal. -/
def configAt : Nat → DocsThemeConfig := fun _ => config

/-- Evaluation of the module body of `src/theme.config.tsx` (first variant)
in an error monad.  The body is a single binding of an object literal built
from string and JSX literals; no sub-expression can throw, so the evaluator
consists of a pure return. -/
def evalThemeConfig : Except String DocsThemeConfig := pure config

/-- Evaluation of the second configuration variant in an error monad; as for
`evalThemeConfig`, no sub-expression can throw. -/
def evalThemeConfigV2 : Except String DocsThemeConfig := pure configV2

/-- Invocation of `LogoWithThumbnail` in an error monad.  The function body
is a single `return` of a JSX literal; no sub-expression can throw. -/
def invokeLogoWithThumbnail : Unit → Except String Node := fun u =>
  pure (LogoWithThumbnail u)

/-- Claim C1 (as stated, refuted): the exported theme-configuration object
does not define a `sidebar` field at all, so in particular it defines no
integer `defaultMenuCollapseLevel`; the claim fails on both variants of
`src/theme.config.tsx`. -/
theorem c1_counterexample :
    ¬ ∃ s : SidebarConfig, config.sidebar = some s ∨ configV2.sidebar = some s := by
  rintro ⟨s, hs | hs⟩ <;> simp [config, configV2] at hs

/-- Claim C1 (amended): the exported theme-configuration object sets no
`sidebar` field, so the repository sets no sidebar collapse level; sidebar
behavior is left entirely to the framework's defaults. -/
theorem c1_no_sidebar_field :
    config.sidebar = none ∧ configV2.sidebar = none
      ∧ sidebarCollapseLevel config = none ∧ sidebarCollapseLevel configV2 = none :=
  ⟨rfl, rfl, rfl, rfl⟩

/-- Claim C2 (as stated, refuted): the exported theme-configuration object
does not define a `head` field; the claim fails on both variants of
`src/theme.config.tsx`. -/
theorem c2_counterexample :
    ¬ ∃ n : Node, config.head = some n ∨ configV2.head = some n := by
  rintro ⟨n, hn | hn⟩ <;> simp [config, configV2] at hn

/-- Claim C2 (amended): the exported theme-configuration object sets no
`head` field; any head meta tags come from the framework's defaults, not from
this repository. -/
theorem c2_no_head_field :
    config.head = none ∧ configV2.head = none :=
  ⟨rfl, rfl⟩

/-- Claim C3: the exported theme-configuration object defines `logo` as a
renderable element, `footer.text` as the string `Athar Faridi Portfolio`,
`docsRepositoryBase` as an `https://` URL string, and `project.link` and
`chat.link` as `https://` URL strings (the latter in both variants of the
file). -/
theorem c3_config_field_shapes :
    (∃ n : Node, config.logo = some n)
    ∧ (∃ f : Footer, config.footer = some f ∧ f.text = "Athar Faridi Portfolio")
    ∧ (∃ r, config.docsRepositoryBase = some ("https://" ++ r))
    ∧ (∃ p : ProjectLink, ∃ r, config.project = some p ∧ p.link = "https://" ++ r)
    ∧ (∃ c : ChatLink, ∃ r, config.chat = some c ∧ c.link = "https://" ++ r)
    ∧ (∃ c : ChatLink, ∃ r, configV2.chat = some c ∧ c.link = "https://" ++ r) :=
  ⟨⟨logoSpan, rfl⟩, ⟨_, rfl, rfl⟩, ⟨"github.com/atharefaridi", rfl⟩,
    ⟨_, "github.com/atharefaridi", rfl, rfl⟩,
    ⟨_, "wa.me/351933442044", rfl, rfl⟩,
    ⟨_, "discord.com", rfl, rfl⟩⟩

/-- Claim C4: on every invocation, `LogoWithThumbnail` returns a tree with
exactly one `img` element and exactly one `span` element; it takes no props
(its input type is `Unit`) and, being a pure function into `Node`, holds no
state and performs no I/O — every invocation returns the same tree. -/
theorem c4_one_img_one_span :
    ∀ u : Unit,
      countTag "img" (LogoWithThumbnail u) = 1
      ∧ countTag "span" (LogoWithThumbnail u) = 1
      ∧ LogoWithThumbnail u = LogoWithThumbnail () := by
  intro u
  refine ⟨?_, ?_, rfl⟩ <;> simp [LogoWithThumbnail, countTag, countTagList]

/-- Claim C5: the configuration is set once at module initialization and
never mutated: a read at any later instant observes exactly the literals of
the source, in particular `footer.text` always equals
`Athar Faridi Portfolio`. -/
theorem c5_config_never_mutated :
    ∀ t : Nat,
      configAt t = config
      ∧ (configAt t).logo = some logoSpan
      ∧ (configAt t).project = some { link := "https://github.com/atharefaridi" }
      ∧ (configAt t).chat = some { link := "https://wa.me/351933442044" }
      ∧ (configAt t).docsRepositoryBase = some "https://github.com/atharefaridi"
      ∧ (configAt t).footer = some { text := "Athar Faridi Portfolio" } :=
  fun _ => ⟨rfl, rfl, rfl, rfl, rfl, rfl⟩

/-- Claim C6: `LogoWithThumbnail` is deterministic — any two invocations
return structurally equal trees; its embedding is a pure function of its
(unit) argument, reading no shared mutable state. -/
theorem c6_deterministic :
    ∀ u v : Unit, LogoWithThumbnail u = LogoWithThumbnail v :=
  fun _ _ => rfl

/-- Claim C7: no error originates from this repository's code — evaluating
either variant of the theme-configuration module and invoking
`LogoWithThumbnail` always succeed; no error branch exists. -/
theorem c7_no_errors :
    evalThemeConfig = Except.ok config
    ∧ evalThemeConfigV2 = Except.ok configV2
    ∧ ∀ u : Unit, invokeLogoWithThumbnail u = Except.ok (LogoWithThumbnail u) :=
  ⟨rfl, rfl, fun _ => rfl⟩

/-- Claim C8: the configuration's `logo` is a `span` whose content is the
bold text `Athar Faridi` and which contains no `img`; the configuration does
not reference `LogoWithThumbnail` (whose output, which does contain an `img`,
differs from the configured logo). -/
theorem c8_logo_is_plain_span :
    config.logo = some logoSpan
    ∧ logoSpan = Node.element "span" [("style", AttrValue.style [("fontSize", "xx-large")])]
        [Node.element "b" [] [Node.text "Athar Faridi"]]
    ∧ countTag "img" logoSpan = 0
    ∧ countTag "b" logoSpan = 1
    ∧ textContent logoSpan = "Athar Faridi"
    ∧ (∀ u : Unit, config.logo ≠ some (LogoWithThumbnail u))
    ∧ configV2.logo = config.logo := by
  refine ⟨rfl, rfl, ?_, ?_, ?_, ?_, rfl⟩
  · simp [logoSpan, countTag, countTagList]
  · simp [logoSpan, countTag, countTagList]
  · simp [logoSpan, textContent, textContentList]
  · intro u h
    simp [config, logoSpan, LogoWithThumbnail] at h

/-- Claim C9: in the exported configuration, `project.link` and
`docsRepositoryBase` are equal, both being the string
`https://github.com/atharefaridi` (in both variants of the file). -/
theorem c9_project_link_equals_repo_base :
    config.project = some { link := "https://github.com/atharefaridi" }
    ∧ config.docsRepositoryBase = some "https://github.com/atharefaridi"
    ∧ Option.map ProjectLink.link config.project = config.docsRepositoryBase
    ∧ Option.map ProjectLink.link configV2.project = configV2.docsRepositoryBase :=
  ⟨rfl, rfl, rfl, rfl⟩

/-- Claim C10: on every invocation of `LogoWithThumbnail`, the rendered tree
has exactly one `img` `src`, the fixed avatar URL, and its `span`'s text
content is exactly `Athar Faridi`. -/
theorem c10_img_src_and_span_text :
    ∀ u : Unit,
      imgSrcs (LogoWithThumbnail u)
          = ["https://avatars.githubusercontent.com/u/10737044?v=4"]
      ∧ spanTexts (LogoWithThumbnail u) = ["Athar Faridi"] := by
  intro u
  constructor
  · simp [LogoWithThumbnail, imgSrcs, imgSrcsList, attrStr]
  · simp [LogoWithThumbnail, spanTexts, spanTextsList, textContent, textContentList]

end TechBlog
